import Mathlib

/-!
Verification of the parkapi-static-data converters.

This file is a shallow embedding of the two converter scripts of the
repository:

* `csv2geojson.py` — reads a CSV file with a header row, builds one GeoJSON
  `Feature` per valid row, and writes a `FeatureCollection`.
* `xlsx2geojson.py` — reads a spreadsheet, maps localized headers to
  canonical fields, applies per-field transforms (unit conversion, enum
  remapping, opening-hours normalization), validates each row and collects
  per-row errors, then writes a `FeatureCollection`.

Python values flowing through the converters (cell values, dict values,
JSON output) are embedded as `PyVal`.  Python dicts are embedded as
insertion-ordered association lists (`Dict`), matching CPython dict
semantics for the unique-key dicts the scripts build.  Fallible Python
operations (`KeyError`, `TypeError`, `AttributeError`, uncaught
`ValueError`) are embedded via `Option`: `none` models an uncaught
exception aborting the run at that point.

Modelling restrictions, stated once here: text predicates
(`str.isdigit`, `str.lower`, `str.strip`, `float(...)`) are modelled on
their ASCII behaviour (Unicode digit classes, Unicode case folding,
`inf`/`nan`/underscore float literals are not modelled); `str(float)`
rendering is modelled as rational rendering, as no claim depends on the
exact text of a rendered number.
-/

/-- Embedded Python runtime value, as produced by the CSV/openpyxl readers
and manipulated by the converters: `None`, booleans, ints, floats
(embedded as rationals), strings, lists, dicts, and the validation
framework's `UnsetValue` marker. -/
inductive PyVal where
  | vNone : PyVal
  | vUnset : PyVal
  | vBool : Bool → PyVal
  | vInt : Int → PyVal
  | vFloat : Rat → PyVal
  | vStr : String → PyVal
  | vList : List PyVal → PyVal
  | vDict : List (String × PyVal) → PyVal

/-- A Python dict with string keys, in insertion order. -/
abbrev Dict := List (String × PyVal)

/-- Python `d[k] = v` on a dict without duplicate keys: update the existing
entry in place, else append at the end (CPython insertion order). -/
def dset : Dict → String → PyVal → Dict
  | [], k, v => [(k, v)]
  | (k', v') :: rest, k, v =>
      if k' = k then (k, v) :: rest else (k', v') :: dset rest k v

/-- Python `d.get(k)` / `d[k]` / `k in d`: the first (only) entry for `k`. -/
def dget : Dict → String → Option PyVal
  | [], _ => none
  | (k', v) :: rest, k => if k' = k then some v else dget rest k

/-- Value of a list of decimal digit characters, most significant first
(the numeric value Python's `int(s)` computes for an all-digit string). -/
def digitsVal (ds : List Char) : Nat :=
  ds.foldl (fun a c => a * 10 + (c.toNat - 48)) 0

/-- Python `str.isdigit` for ASCII text: non-empty and all decimal digits
(embedding restriction: Python additionally accepts some non-ASCII digit
characters, which the CSV inputs do not use). -/
def pyIsdigit (s : String) : Bool := !s.isEmpty && s.data.all Char.isDigit

/-- Python `int(s)` for a string accepted by `pyIsdigit`. -/
def pyIntOfDigits (s : String) : Int := (digitsVal s.data : Int)

/-- Python `float(s)`: strip whitespace, then parse
`[sign] (digits [. digits] | . digits) [(e|E) [sign] digits]`.
Not modelled: `inf`/`nan` literals and underscore digit separators. -/
def pyFloat (s : String) : Option Rat :=
  let l := ((s.data.dropWhile Char.isWhitespace).reverse.dropWhile
    Char.isWhitespace).reverse
  let sgnTail : Int × List Char :=
    match l with
    | '+' :: t => (1, t)
    | '-' :: t => (-1, t)
    | _ => (1, l)
  let ipRest := sgnTail.2.span Char.isDigit
  let fpRest : List Char × List Char :=
    match ipRest.2 with
    | '.' :: t => t.span Char.isDigit
    | _ => ([], ipRest.2)
  let sawDot : Bool := match ipRest.2 with
    | '.' :: _ => true
    | _ => false
  if ipRest.1 = [] ∧ fpRest.1 = [] then none
  else
    -- the exact rational value of the parsed literal, as a single fraction
    let mantNum : Int :=
      sgnTail.1 * ((digitsVal ipRest.1 : Int) * (10 : Int) ^ fpRest.1.length +
        (digitsVal fpRest.1 : Int))
    let mantDen : Nat := 10 ^ fpRest.1.length
    let rest := if sawDot then fpRest.2 else ipRest.2
    match rest with
    | [] => some (mkRat mantNum mantDen)
    | e :: t =>
        if e = 'e' ∨ e = 'E' then
          let esgnTail : Int × List Char :=
            match t with
            | '+' :: u => (1, u)
            | '-' :: u => (-1, u)
            | _ => (1, t)
          let edRest := esgnTail.2.span Char.isDigit
          if edRest.1 = [] ∨ edRest.2 ≠ [] then none
          else
            let ex : Int := esgnTail.1 * (digitsVal edRest.1 : Int)
            if 0 ≤ ex then
              some (mkRat (mantNum * (10 : Int) ^ ex.toNat) mantDen)
            else
              some (mkRat mantNum (mantDen * 10 ^ (-ex).toNat))
        else none

/-! ## The CSV pipeline (`csv2geojson.py`)

A CSV row as produced by `csv.DictReader` is a finite map from column
name to cell text; absence models a column missing from the header. -/

/-- One CSV row: column name to cell text, `none` when the column is
absent from the file's header. -/
def Row := String → Option String

/-- The singleton dict fragment contributed by one optional property. -/
def optEntry (k : String) (v : Option PyVal) : Dict :=
  match v with
  | some x => [(k, x)]
  | none => []

/-- Optional passthrough column (`address`, `type`): kept when present and
non-empty (`csv2geojson.py` lines 22-24). -/
def passthroughCell (o : Option String) : Option PyVal :=
  match o with
  | some s => if s = "" then none else some (.vStr s)
  | none => none

/-- Numeric-limit column (`max_height`/`max_width`/`max_depth`): kept as an
int exactly when the cell is non-empty and all digits
(`csv2geojson.py` lines 25-27). -/
def digitCell (o : Option String) : Option PyVal :=
  match o with
  | some s => if s ≠ "" && pyIsdigit s then some (.vInt (pyIntOfDigits s)) else none
  | none => none

/-- `park_and_ride_type`: scalar wrapped into a one-element list
(`csv2geojson.py` lines 28-29). -/
def prCell (o : Option String) : Option PyVal :=
  match o with
  | some s => if s = "" then none else some (.vList [.vStr s])
  | none => none

/-- `DHID` column: wrapped into an `external_identifiers` object
(`csv2geojson.py` lines 30-31). -/
def dhidCell (o : Option String) : Option PyVal :=
  match o with
  | some s =>
      if s = "" then none
      else some (.vDict [("type", .vStr "DHID"), ("value", .vStr s)])
  | none => none

/-- The `properties` dict built for a CSV row whose `uid` is the non-empty
string `u` (`csv2geojson.py` lines 21-31), in insertion order. -/
def csvProps (row : Row) (u : String) : Dict :=
  ("uid", .vStr u) ::
    (optEntry "address" (passthroughCell (row "address")) ++
     (optEntry "type" (passthroughCell (row "type")) ++
      (optEntry "max_height" (digitCell (row "max_height")) ++
       (optEntry "max_width" (digitCell (row "max_width")) ++
        (optEntry "max_depth" (digitCell (row "max_depth")) ++
         (optEntry "park_and_ride_type" (prCell (row "park_and_ride_type")) ++
          optEntry "external_identifiers" (dhidCell (row "DHID"))))))))

/-- One GeoJSON feature emitted by the CSV pipeline; the constant members
`"type": "Feature"` and `"geometry": \x7b"type": "Point", ...\x7d` are left
implicit, `coordinates` is the two-element `[lon, lat]` list. -/
structure CsvFeature where
  properties : Dict
  coordinates : List Rat

/-- Reason a CSV row is dropped (the script prints a line per drop). -/
inductive DropReason where
  | uidMissing
  | latlonMissing
  deriving DecidableEq

/-- Outcome of the loop body for one CSV row: drop with a printed reason,
emit one feature, or crash on an uncaught `ValueError` from `float(...)`. -/
inductive RowStep where
  | skip : DropReason → RowStep
  | emit : CsvFeature → RowStep
  | crash : RowStep

/-- Loop body of `csv2geojson.py` lines 14-32 for one row. -/
def processRow (row : Row) : RowStep :=
  match row "uid" with
  | none => .skip .uidMissing
  | some u =>
      if u = "" then .skip .uidMissing
      else
        match row "lat", row "lon" with
        | some slat, some slon =>
            (match pyFloat slon, pyFloat slat with
             | some x, some y => .emit ⟨csvProps row u, [x, y]⟩
             | _, _ => .crash)
        | _, _ => .skip .latlonMissing

/-- The whole CSV read loop: features in input order plus the printed drop
log; `none` when some row raised an uncaught exception (aborting the run
before any output is written). -/
def processCsv : List Row → Option (List CsvFeature × List DropReason)
  | [] => some ([], [])
  | r :: rs =>
      match processRow r with
      | .crash => none
      | .skip d => (processCsv rs).map (fun p => (p.1, d :: p.2))
      | .emit f => (processCsv rs).map (fun p => (f :: p.1, p.2))

/-- Concrete CSV row used by witnesses: valid uid/lat/lon, an all-digit
`max_height` and a non-numeric `max_width`. -/
def rowW1 : Row := fun k =>
  if k = "uid" then some "42"
  else if k = "lat" then some "48.1"
  else if k = "lon" then some "11.5"
  else if k = "max_height" then some "200"
  else if k = "max_width" then some "n/a"
  else none

/-- Concrete CSV row with a `lat` cell that Python `float` rejects. -/
def rowBadLat : Row := fun k =>
  if k = "uid" then some "1"
  else if k = "lat" then some "n/a"
  else if k = "lon" then some "11.5"
  else none

/-- Concrete CSV row whose `uid` column is absent. -/
def rowNoUid : Row := fun k =>
  if k = "lat" then some "48.1"
  else if k = "lon" then some "11.5"
  else none

/-! ## The spreadsheet pipeline (`xlsx2geojson.py`)

Python repr/str, truthiness, rounding, and the serialization helpers. -/

mutual
/-- Python `repr` on embedded values (used through `str` on containers).
Rendering of floats is approximated by rational rendering and string
escaping is omitted; no claim depends on the exact rendered text. -/
def pyRepr : PyVal → String
  | .vNone => "None"
  | .vUnset => "<UnsetValue>"
  | .vBool true => "True"
  | .vBool false => "False"
  | .vInt n => toString n
  | .vFloat q => toString q
  | .vStr s => "\x27" ++ s ++ "\x27"
  | .vList l => "[" ++ String.intercalate ", " (pyReprItems l) ++ "]"
  | .vDict d => "\x7b" ++ String.intercalate ", " (pyReprEntries d) ++ "\x7d"
def pyReprItems : List PyVal → List String
  | [] => []
  | v :: vs => pyRepr v :: pyReprItems vs
def pyReprEntries : List (String × PyVal) → List String
  | [] => []
  | p :: ps => ("\x27" ++ p.1 ++ "\x27: " ++ pyRepr p.2) :: pyReprEntries ps
end

/-- Python `str(obj)` / an f-string interpolation of `obj`. -/
def pyStr (v : PyVal) : String :=
  match v with
  | .vStr s => s
  | v => pyRepr v

/-- Python `v is None`. -/
def isVNone : PyVal → Bool
  | .vNone => true
  | _ => false

/-- Python `str.startswith(pre)`. -/
def pyStartsWith (s pre : String) : Bool := pre.data.isPrefixOf s.data

/-- Python truthiness (`if v:`). -/
def pyTruthy : PyVal → Bool
  | .vNone => false
  | .vUnset => true
  | .vBool b => b
  | .vInt n => n ≠ 0
  | .vFloat q => q ≠ 0
  | .vStr s => s ≠ ""
  | .vList l => !l.isEmpty
  | .vDict d => !d.isEmpty

/-- Python `str.strip()` (ASCII whitespace). -/
def pyStrip (s : String) : String :=
  ⟨((s.data.dropWhile Char.isWhitespace).reverse.dropWhile
    Char.isWhitespace).reverse⟩

/-- Python `str.lower()` for one ASCII character. -/
def lowerChar (c : Char) : Char :=
  if 65 ≤ c.toNat ∧ c.toNat ≤ 90 then Char.ofNat (c.toNat + 32) else c

/-- Python `str.lower()` (ASCII case folding). -/
def pyLower (s : String) : String := ⟨s.data.map lowerChar⟩

/-- `normalize_text` (`xlsx2geojson.py` lines 99-102): strip and lowercase
strings, return any other value unchanged. -/
def normalizeText : PyVal → PyVal
  | .vStr s => .vStr (pyLower (pyStrip s))
  | v => v

/-- Python `str.splitlines()` restricted to the `\n`, `\r`, `\r\n`
terminators. -/
def splitlinesGo : List Char → List Char → List String
  | [], acc => if acc.isEmpty then [] else [⟨acc.reverse⟩]
  | '\r' :: '\n' :: rest, acc => (⟨acc.reverse⟩ : String) :: splitlinesGo rest []
  | '\r' :: rest, acc => (⟨acc.reverse⟩ : String) :: splitlinesGo rest []
  | '\n' :: rest, acc => (⟨acc.reverse⟩ : String) :: splitlinesGo rest []
  | c :: rest, acc => splitlinesGo rest (c :: acc)

/-- `to_single_line` (`xlsx2geojson.py` lines 95-96):
`" ".join(text.strip().splitlines())`. -/
def toSingleLine (s : String) : String :=
  String.intercalate " " (splitlinesGo (pyStrip s).data [])

/-- Python `round()` on the exact rational value of a float: round half to
even. -/
def pyRound (q : Rat) : Int :=
  let n := q.num
  let d : Int := (q.den : Int)
  let fl := Int.fdiv n d
  let r2 := 2 * (n - fl * d)
  if r2 < d then fl
  else if d < r2 then fl + 1
  else if fl % 2 = 0 then fl else fl + 1

/-- Python `s * n` for a string. -/
def pyStrMulNat (s : String) (n : Nat) : String :=
  String.join (List.replicate n s)

/-- Python `l * n` for a list. -/
def pyListMulNat (l : List PyVal) (n : Nat) : List PyVal :=
  (List.replicate n l).flatten

mutual
/-- `serialize` (`xlsx2geojson.py` lines 70-88).  Branches in source
order: `bool`/`int`/`float` pass through (the `Decimal → float` branch is
the identity under the rational embedding, and the `datetime`/Enum
branches produce plain strings/values upstream of this model); a list maps
its items, dict items dropping their `None`-valued keys; `UnsetValue`
becomes `None`; everything else becomes `str(obj)`. -/
def serialize : PyVal → PyVal
  | .vBool b => .vBool b
  | .vInt n => .vInt n
  | .vFloat q => .vFloat q
  | .vList l => .vList (serializeItems l)
  | .vUnset => .vNone
  | .vNone => .vStr (pyStr .vNone)
  | .vStr s => .vStr (pyStr (.vStr s))
  | .vDict d => .vStr (pyStr (.vDict d))
def serializeItems : List PyVal → List PyVal
  | [] => []
  | item :: rest =>
      (match item with
       | .vDict dd => .vDict (serializeEntries dd)
       | v => serialize v) :: serializeItems rest
def serializeEntries : List (String × PyVal) → List (String × PyVal)
  | [] => []
  | p :: ps =>
      if isVNone p.2 then serializeEntries ps
      else (p.1, serialize p.2) :: serializeEntries ps
end

/-- `filter_none` (`xlsx2geojson.py` lines 91-92): drop `None`-valued keys
and serialize the remaining values. -/
def filterNone (d : Dict) : Dict :=
  (d.filter (fun p => !isVNone p.2)).map (fun p => (p.1, serialize p.2))

mutual
/-- A JSON `null` occurs somewhere in the value. -/
def hasNull : PyVal → Bool
  | .vNone => true
  | .vList l => hasNullItems l
  | .vDict d => hasNullEntries d
  | _ => false
def hasNullItems : List PyVal → Bool
  | [] => false
  | v :: vs => hasNull v || hasNullItems vs
def hasNullEntries : List (String × PyVal) → Bool
  | [] => false
  | p :: ps => hasNull p.2 || hasNullEntries ps
end

mutual
/-- An `UnsetValue` marker occurs somewhere in the value. -/
def hasUnset : PyVal → Bool
  | .vUnset => true
  | .vList l => hasUnsetItems l
  | .vDict d => hasUnsetEntries d
  | _ => false
def hasUnsetItems : List PyVal → Bool
  | [] => false
  | v :: vs => hasUnset v || hasUnsetItems vs
def hasUnsetEntries : List (String × PyVal) → Bool
  | [] => false
  | p :: ps => hasUnset p.2 || hasUnsetEntries ps
end

/-! Enum mapping tables (`xlsx2geojson.py` lines 174-208) as lookup
functions on raw cell values.  The `supervision_type` table has the
Python keys `True`/`False`, which by CPython dict key equality also match
the numbers `1`/`0`. -/

/-- `type_mapping` (`xlsx2geojson.py` lines 175-179). -/
def typeMapping : PyVal → Option String
  | .vStr s =>
      if s = "parkplatz" then some "OFF_STREET_PARKING_GROUND"
      else if s = "parkhaus" then some "CAR_PARK"
      else if s = "tiefgarage" then some "UNDERGROUND"
      else none
  | _ => none

/-- `purpose_type_mapping` (`xlsx2geojson.py` lines 181-184). -/
def purposeTypeMapping : PyVal → Option String
  | .vStr s =>
      if s = "auto" then some "CAR"
      else if s = "fahrrad" then some "BIKE"
      else none
  | _ => none

/-- `supervision_type_mapping` (`xlsx2geojson.py` lines 186-193).
`1 == True` and `0 == False` as dict keys in Python, hence the numeric
cases. -/
def supervisionTypeMapping : PyVal → Option String
  | .vBool b => if b then some "YES" else some "NO"
  | .vStr s =>
      if s = "video" then some "VIDEO"
      else if s = "ja" then some "YES"
      else if s = "nein" then some "NO"
      else if s = "bewacht" then some "ATTENDED"
      else none
  | .vInt n => if n = 1 then some "YES" else if n = 0 then some "NO" else none
  | .vFloat q =>
      if q.num = 1 ∧ q.den = 1 then some "YES"
      else if q.num = 0 then some "NO" else none
  | _ => none

/-- `restricted_to_type_mapping` (`xlsx2geojson.py` lines 195-199). -/
def restrictedToTypeMapping : PyVal → Option String
  | .vStr s =>
      if s = "ladesäule" then some "CHARGING"
      else if s = "familie" then some "FAMILY"
      else if s = "handicap" then some "DISABLED"
      else none
  | _ => none

/-- `park_and_ride_type_mapping` (`xlsx2geojson.py` lines 201-208). -/
def parkAndRideTypeMapping : PyVal → Option String
  | .vStr s =>
      if s = "fahrgemeinschaft" then some "CARPOOL"
      else if s = "bahn" then some "TRAIN"
      else if s = "bus" then some "BUS"
      else if s = "straßenbahn" then some "TRAM"
      else if s = "ja" then some "YES"
      else if s = "nein" then some "NO"
      else none
  | _ => none

/-- Sites pipeline `type` lookup with fallback
(`xlsx2geojson.py` lines 274-276):
`self.type_mapping.get(normalize_text(...), "OFF_STREET_PARKING_GROUND")`. -/
def sitesType (v : PyVal) : String :=
  (typeMapping (normalizeText v)).getD "OFF_STREET_PARKING_GROUND"

/-- Sites pipeline `purpose` lookup (`xlsx2geojson.py` lines 271-273). -/
def sitesPurpose (v : PyVal) : Option String :=
  purposeTypeMapping (normalizeText v)

/-- Sites pipeline `supervision_type` lookup
(`xlsx2geojson.py` lines 277-279). -/
def sitesSupervision (v : PyVal) : Option String :=
  supervisionTypeMapping (normalizeText v)

/-- Sites pipeline `park_and_ride_type` lookup
(`xlsx2geojson.py` lines 280-282). -/
def sitesParkAndRide (v : PyVal) : Option String :=
  parkAndRideTypeMapping (normalizeText v)

/-- Spots pipeline `type` lookup (`xlsx2geojson.py` lines 465-470): an
indexing guarded by `isinstance(raw_type, str) and raw_type.strip() in
self.type_mapping`, with `None` — not the sites fallback — otherwise. -/
def spotsType (v : PyVal) : Option String :=
  match normalizeText v with
  | .vStr s => typeMapping (.vStr (pyStrip s))
  | _ => none

/-- Spots pipeline `purpose` lookup (`xlsx2geojson.py` lines 474-476). -/
def spotsPurpose (v : PyVal) : Option String :=
  purposeTypeMapping (normalizeText v)

/-- Spots pipeline `restricted_to_type` lookup
(`xlsx2geojson.py` lines 454-459): `.get(..., "")` then
`mapping.get(raw.lower().strip())` when the raw value is a string, else
`None`. -/
def spotsRestrictedTo (v : PyVal) : Option String :=
  match v with
  | .vStr s => restrictedToTypeMapping (.vStr (pyStrip (pyLower s)))
  | _ => none

/-- An optional canonical code as the stored dict value (`dict.get`
returning `None` for a missing key). -/
def optToVal : Option String → PyVal
  | some s => .vStr s
  | none => .vNone

/-- Python `str.replace(pat, rep)` for a non-empty pattern, on character
lists: left-to-right, non-overlapping. -/
def replaceL (pat rep : List Char) : List Char → List Char
  | [] => []
  | c :: cs =>
      if pat ≠ [] ∧ pat.isPrefixOf (c :: cs) then
        rep ++ replaceL pat rep ((c :: cs).drop pat.length)
      else c :: replaceL pat rep cs
termination_by l => l.length
decreasing_by
  · rename_i h
    rw [List.length_drop]
    have hlen := ( List.isPrefixOf_iff_prefix.mp h.2).length_le
    have h1 : 0 < pat.length := List.length_pos.mpr h.1
    omega
  · simp

/-- The opening-hours rewrite (`xlsx2geojson.py` lines 263-265):
`.replace("00:00-00:00", "00:00-24:00")`. -/
def ohReplace (s : String) : String :=
  ⟨replaceL "00:00-00:00".data "00:00-24:00".data s.data⟩

/-- The `max_height` assignment (`xlsx2geojson.py` lines 253-257): floats
are rounded then multiplied by 100; any other value is multiplied by 100
with Python `*` semantics — ints scale, bools coerce to `0`/`100`, strings
and lists repeat, `None` (and other non-sequence objects) raise an
uncaught `TypeError`. -/
def maxHeightTransform : PyVal → Option PyVal
  | .vFloat q => some (.vInt (pyRound q * 100))
  | .vInt n => some (.vInt (n * 100))
  | .vBool b => some (.vInt ((if b then 1 else 0) * 100))
  | .vStr s => some (.vStr (pyStrMulNat s 100))
  | .vList l => some (.vList (pyListMulNat l 100))
  | _ => none

/-- The `max_stay` assignment (`xlsx2geojson.py` lines 258-262): floats
are rounded, everything else is kept as is. -/
def roundIfFloat : PyVal → PyVal
  | .vFloat q => .vInt (pyRound q)
  | v => v

/-- `max_height` step of `map_row_to_parking_site_dict`
(`xlsx2geojson.py` lines 253-257); `none` models the uncaught
`TypeError`. -/
def step_mh (d : Dict) : Option Dict :=
  (maxHeightTransform ((dget d "max_height").getD .vNone)).map
    (dset d "max_height")

/-- `max_stay` step (`xlsx2geojson.py` lines 258-262). -/
def step_ms (d : Dict) : Dict :=
  dset d "max_stay" (roundIfFloat ((dget d "max_stay").getD .vNone))

/-- `opening_hours` step (`xlsx2geojson.py` lines 263-265); `none` models
a `KeyError` (key absent) or `AttributeError` (`.replace` on a
non-string). -/
def step_oh (d : Dict) : Option Dict :=
  match dget d "opening_hours" with
  | some (.vStr s) => some (dset d "opening_hours" (.vStr (ohReplace s)))
  | _ => none

/-- `fee_description` step (`xlsx2geojson.py` lines 266-270); `none`
models the `KeyError` when the key is absent. -/
def step_fee (d : Dict) : Option Dict :=
  match dget d "fee_description" with
  | some v =>
      some (dset d "fee_description"
        (if pyTruthy v then .vStr (toSingleLine (pyStr v)) else .vNone))
  | none => none

/-- Enum remapping steps (`xlsx2geojson.py` lines 271-282), in source
order: `purpose`, `type` (with fallback), `supervision_type`,
`park_and_ride_type`. -/
def step_enums (d : Dict) : Dict :=
  let d₁ := dset d "purpose"
    (optToVal (sitesPurpose ((dget d "purpose").getD .vNone)))
  let d₂ := dset d₁ "type" (.vStr (sitesType ((dget d₁ "type").getD .vNone)))
  let d₃ := dset d₂ "supervision_type"
    (optToVal (sitesSupervision ((dget d₂ "supervision_type").getD .vNone)))
  dset d₃ "park_and_ride_type"
    (optToVal (sitesParkAndRide ((dget d₃ "park_and_ride_type").getD .vNone)))

/-- `address` synthesis (`xlsx2geojson.py` lines 283-289): only when both
parts are present. -/
def step_addr (d : Dict) : Dict :=
  match dget d "street_number", dget d "postcode_city" with
  | some a, some b => dset d "address" (.vStr (pyStr a ++ ", " ++ pyStr b))
  | _, _ => d

/-- Trailing steps (`xlsx2geojson.py` lines 291-297): timestamp (`now` is
the rendered `datetime.now(tz=utc).isoformat()`, passed as a parameter),
`lat`/`lon` f-string rendering (`KeyError` when absent), and
`has_realtime_data` from the source info. -/
def step_tail (now : String) (d : Dict) : Option Dict :=
  match dget d "lat", dget d "lon" with
  | some la, some lo =>
      some (dset (dset (dset (dset d "static_data_updated_at" (.vStr now))
        "lat" (.vStr (pyStr la))) "lon" (.vStr (pyStr lo)))
        "has_realtime_data" (.vBool true))
  | _, _ => none

/-- The transform chain of
`Xlsx2GeojsonParkingSites.map_row_to_parking_site_dict`
(`xlsx2geojson.py` lines 253-299) applied to the dict `d` assembled by the
superclass call plus the raw per-field override loop (lines 244-251, both
outside this repository's logic).  `none` models an uncaught exception. -/
def mapSitesTransforms (now : String) (d : Dict) : Option Dict :=
  match step_mh d with
  | none => none
  | some d₁ =>
      match step_oh (step_ms d₁) with
      | none => none
      | some d₂ =>
          match step_fee d₂ with
          | none => none
          | some d₃ => step_tail now (step_addr (step_enums d₃))

/-- The transform chain of
`Xlsx2GeojsonParkingSpots.map_row_to_parking_spot_dict`
(`xlsx2geojson.py` lines 427-484) applied to the raw field dict `d`;
`osmHours` is the output of the external opening-time validator
(`get_osm_opening_hours`), `now` the rendered timestamp. -/
def mapSpotsTransforms (osmHours now : String) (d : Dict) : Option Dict :=
  let base : Dict := d.filter (fun p => !(pyStartsWith p.1 "opening_hours_"))
  let rtt := spotsRestrictedTo ((dget d "restricted_to_type").getD (.vStr ""))
  let restrictedTo : PyVal :=
    .vDict [("type", optToVal rtt), ("hours", .vStr osmHours)]
  let d₁ := dset base "type" (optToVal (spotsType ((dget base "type").getD .vNone)))
  let d₂ := dset d₁ "restrictions" (.vList [restrictedTo])
  let d₃ := dset d₂ "has_realtime_data" (.vBool true)
  let d₄ := dset d₃ "purpose"
    (optToVal (spotsPurpose ((dget d₃ "purpose").getD .vNone)))
  let d₅ := dset d₄ "static_data_updated_at" (.vStr now)
  match dget d₅ "lat", dget d₅ "lon" with
  | some la, some lo =>
      some (dset (dset d₅ "lat" (.vStr (pyStr la))) "lon" (.vStr (pyStr lo)))
  | _, _ => none

/-- One spreadsheet row: the tuple of cell values. -/
abbrev SheetRow := List PyVal

/-- An `ImportParkingSiteException`/`ImportParkingSpotException` record
(source uid, row uid when known, human-readable message). -/
structure ImpErr where
  sourceUid : String
  recordUid : Option PyVal
  message : String

/-- The error record built in the `except ValidationError` handler
(`xlsx2geojson.py` lines 342-349 and 415-422): source uid, the mapped
dict's `uid` if any, and a message embedding the mapped record and the
validator's error detail `e`. -/
def mkImpErr (msgPrefix srcUid : String) (d : Dict) (e : String) : ImpErr :=
  ⟨srcUid, dget d "uid", msgPrefix ++ pyStr (.vDict d) ++ ": " ++ e⟩

/-- One emitted spreadsheet feature: validated-and-filtered properties and
`[lon, lat]` coordinates read back from them
(`xlsx2geojson.py` lines 328-340 and 401-413). -/
structure SheetFeature where
  properties : Dict
  coordinates : List PyVal

/-- The shared shape of `handle_xlsx` (`xlsx2geojson.py` lines 301-352 and
373-425): skip rows whose first cell is `None`; run the row mapping
(outside the `try`, so `none` aborts the whole run); validate
(externally-supplied `validate`, modelling the `DataclassValidator`
contract plus `to_dict`); on success filter `None`s and assemble a
feature (`KeyError` on a missing `lon`/`lat` aborts); on `ValidationError`
record an error and continue. -/
def handleLoop (msgPrefix srcUid : String) (mapR : SheetRow → Option Dict)
    (validate : Dict → Except String Dict) :
    List SheetRow → Option (List SheetFeature × List ImpErr)
  | [] => some ([], [])
  | r :: rs =>
      if isVNone (r.headD .vNone) then handleLoop msgPrefix srcUid mapR validate rs
      else
        match mapR r with
        | none => none
        | some d =>
            match validate d with
            | .ok vd =>
                let p := filterNone vd
                match dget p "lon", dget p "lat" with
                | some lo, some la =>
                    (handleLoop msgPrefix srcUid mapR validate rs).map
                      (fun q => (⟨p, [lo, la]⟩ :: q.1, q.2))
                | _, _ => none
            | .error e =>
                (handleLoop msgPrefix srcUid mapR validate rs).map
                  (fun q => (q.1, mkImpErr msgPrefix srcUid d e :: q.2))

/-- `Xlsx2GeojsonParkingSites.handle_xlsx` loop. -/
def handleSites := handleLoop "invalid static parking site data "

/-- `Xlsx2GeojsonParkingSpots.handle_xlsx` loop. -/
def handleSpots := handleLoop "invalid static parking spot data "

/-- Outcome of the spreadsheet CLI prologue. -/
inductive CliOutcome where
  | usageExit : String → CliOutcome
  | nameError : CliOutcome
  | checkFile : String → CliOutcome
  deriving DecidableEq

/-- The CLI prologue of `xlsx2geojson.py` (lines 49-67): two emptiness
guards — both testing `source_group` — then the `file_path` assignment
chain with no `else` branch; for any other non-empty group the later
`file_path.is_file()` raises `NameError` (`file_path` never assigned).
`checkFile p` means control proceeds to the existence check of `p`. -/
def cliResolve (uid sourceGroup : String) : CliOutcome :=
  if sourceGroup = "" then
    .usageExit "Error: please add a source_uid as first argument"
  else if sourceGroup = "" then
    .usageExit "Error: please add a source_group e.g. parking-spots, parking-sites"
  else if sourceGroup = "parking-sites" then
    .checkFile ("sources/" ++ uid ++ ".xlsx")
  else if sourceGroup = "parking-spots" then
    .checkFile ("sources/parking-spots/" ++ uid ++ ".xlsx")
  else .nameError

/-- The keys written by the sites row transforms
(`xlsx2geojson.py` lines 253-297). -/
def sitesTouchedKeys : List String :=
  ["max_height", "max_stay", "opening_hours", "fee_description", "purpose",
   "type", "supervision_type", "park_and_ride_type", "address",
   "static_data_updated_at", "lat", "lon", "has_realtime_data"]

/-- Concrete mapped sites row with a float `max_height` of 2.3. -/
def dEx2 : Dict :=
  [("uid", .vStr "u1"), ("name", .vStr "N"),
   ("max_height", .vFloat (mkRat 23 10)), ("max_stay", .vFloat (mkRat 45 10)),
   ("opening_hours", .vStr "Mo-Su 00:00-00:00"), ("fee_description", .vNone),
   ("lat", .vInt 48), ("lon", .vInt 11)]

/-- The transformed `dEx2`. -/
def outEx2 : Dict := (mapSitesTransforms "T" dEx2).getD []

/-- Concrete mapped sites row whose opening hours are exactly
`00:00-00:00`. -/
def dEx3 : Dict :=
  [("uid", .vStr "u2"), ("max_height", .vInt 2),
   ("opening_hours", .vStr "00:00-00:00"), ("fee_description", .vNone),
   ("lat", .vInt 1), ("lon", .vInt 2)]

/-- The transformed `dEx3`. -/
def outEx3 : Dict := (mapSitesTransforms "T" dEx3).getD []

/-- Concrete mapped sites row whose opening hours contain no
`00:00-00:00`. -/
def dEx4 : Dict :=
  [("uid", .vStr "u3"), ("max_height", .vInt 2),
   ("opening_hours", .vStr "24/7"), ("fee_description", .vNone),
   ("lat", .vInt 1), ("lon", .vInt 2)]

/-- The transformed `dEx4`. -/
def outEx4 : Dict := (mapSitesTransforms "T" dEx4).getD []

/-- Concrete raw spots row dict. -/
def dSpotsEx : Dict :=
  [("uid", .vStr "s1"), ("type", .vStr "garage"),
   ("supervision_type", .vStr "ja"), ("purpose", .vStr "Auto"),
   ("lat", .vInt 1), ("lon", .vInt 2)]

/-- Concrete validated record for the filter-none witness. -/
def dC8 : Dict :=
  [("a", .vInt 1), ("b", .vNone),
   ("c", .vList [.vDict [("x", .vNone), ("y", .vStr "v")]])]

/-- The transformed `dSpotsEx` (empty schedule string, timestamp `T`). -/
def outSpotsEx : Dict := (mapSpotsTransforms "0:0" "T" dSpotsEx).getD []

/-! ## Theorems -/

theorem dget_dset_self (d : Dict) (k : String) (v : PyVal) :
    dget (dset d k v) k = some v := by
  induction d with
  | nil => simp [dget, dset]
  | cons p rest ih =>
      obtain ⟨k', v'⟩ := p
      by_cases h : k' = k
      · simp [dget, dset, h]
      · simp [dget, dset, h, ih]

theorem dget_dset_ne (d : Dict) (k k' : String) (v : PyVal) (h : k' ≠ k) :
    dget (dset d k v) k' = dget d k' := by
  induction d with
  | nil => simp [dget, dset, Ne.symm h]
  | cons p rest ih =>
      obtain ⟨k₀, v₀⟩ := p
      by_cases hk : k₀ = k
      · subst hk
        simp [dget, dset, Ne.symm h]
      · by_cases hk' : k₀ = k'
        · subst hk'
          simp [dget, dset, h]
        · simp [dget, dset, hk, hk', ih]

theorem processCsv_append (l₁ l₂ : List Row) :
    processCsv (l₁ ++ l₂) =
      match processCsv l₁ with
      | none => none
      | some p₁ =>
          (processCsv l₂).map (fun p₂ => (p₁.1 ++ p₂.1, p₁.2 ++ p₂.2)) := by
  induction l₁ with
  | nil =>
      simp only [List.nil_append, processCsv]
      cases processCsv l₂ <;> simp
  | cons r rs ih =>
      simp only [List.cons_append, processCsv]
      cases processRow r with
      | crash => rfl
      | skip d =>
          simp only [List.append_eq]
          rw [ih]
          cases processCsv rs with
          | none => rfl
          | some p₁ =>
              cases processCsv l₂ with
              | none => rfl
              | some p₂ => simp
      | emit f =>
          simp only [List.append_eq]
          rw [ih]
          cases processCsv rs with
          | none => rfl
          | some p₁ =>
              cases processCsv l₂ with
              | none => rfl
              | some p₂ => simp

theorem processCsv_crash (row : Row) (pre post : List Row)
    (h : processRow row = .crash) :
    processCsv (pre ++ row :: post) = none := by
  rw [processCsv_append]
  cases hp : processCsv pre with
  | none => rfl
  | some p₁ => simp [processCsv, h]

theorem dget_optEntry_ne (k k' : String) (v : Option PyVal) (l : Dict)
    (h : k' ≠ k) : dget (optEntry k v ++ l) k' = dget l k' := by
  cases v <;> simp [optEntry, dget, Ne.symm h]

theorem dget_optEntry_self (k : String) (v : Option PyVal) (l : Dict) :
    dget (optEntry k v ++ l) k =
      match v with
      | some x => some x
      | none => dget l k := by
  cases v <;> simp [optEntry, dget]

theorem dget_optEntry_alone_ne (k k' : String) (v : Option PyVal)
    (h : k' ≠ k) : dget (optEntry k v) k' = none := by
  cases v <;> simp [optEntry, dget, Ne.symm h]

theorem dget_cons_ne (k k' : String) (v : PyVal) (l : Dict) (h : k' ≠ k) :
    dget ((k, v) :: l) k' = dget l k' := by
  simp [dget, Ne.symm h]

theorem dget_csvProps_limit (row : Row) (u c : String)
    (hc : c = "max_height" ∨ c = "max_width" ∨ c = "max_depth") :
    dget (csvProps row u) c = digitCell (row c) := by
  rcases hc with rfl | rfl | rfl
  · rw [csvProps, dget_cons_ne _ _ _ _ (by decide),
      dget_optEntry_ne _ _ _ _ (by decide), dget_optEntry_ne _ _ _ _ (by decide)]
    cases hdc : digitCell (row "max_height") with
    | some v => simp [optEntry, dget]
    | none =>
        rw [show optEntry "max_height" none = [] from rfl, List.nil_append,
          dget_optEntry_ne _ _ _ _ (by decide), dget_optEntry_ne _ _ _ _ (by decide),
          dget_optEntry_ne _ _ _ _ (by decide), dget_optEntry_alone_ne _ _ _ (by decide)]
  · rw [csvProps, dget_cons_ne _ _ _ _ (by decide),
      dget_optEntry_ne _ _ _ _ (by decide), dget_optEntry_ne _ _ _ _ (by decide),
      dget_optEntry_ne _ _ _ _ (by decide)]
    cases hdc : digitCell (row "max_width") with
    | some v => simp [optEntry, dget]
    | none =>
        rw [show optEntry "max_width" none = [] from rfl, List.nil_append,
          dget_optEntry_ne _ _ _ _ (by decide), dget_optEntry_ne _ _ _ _ (by decide),
          dget_optEntry_alone_ne _ _ _ (by decide)]
  · rw [csvProps, dget_cons_ne _ _ _ _ (by decide),
      dget_optEntry_ne _ _ _ _ (by decide), dget_optEntry_ne _ _ _ _ (by decide),
      dget_optEntry_ne _ _ _ _ (by decide), dget_optEntry_ne _ _ _ _ (by decide)]
    cases hdc : digitCell (row "max_depth") with
    | some v => simp [optEntry, dget]
    | none =>
        rw [show optEntry "max_depth" none = [] from rfl, List.nil_append,
          dget_optEntry_ne _ _ _ _ (by decide), dget_optEntry_alone_ne _ _ _ (by decide)]

/-- C7: for the CSV numeric-limit columns `max_height`, `max_width` and
`max_depth`, a cell whose text is entirely decimal digits yields the
corresponding integer in `properties`, and any other cell text (empty or
not, e.g. `"n/a"`, `"2.5"`, `"-3"`) leaves the field omitted from
`properties` entirely — never coerced to `0` and never kept as a raw
string. -/
theorem csv_numeric_limit_digit_or_omitted (row : Row) (u c s : String)
    (hc : c = "max_height" ∨ c = "max_width" ∨ c = "max_depth")
    (hs : row c = some s) :
    (pyIsdigit s = true →
      dget (csvProps row u) c = some (.vInt (pyIntOfDigits s))) ∧
    (pyIsdigit s = false → dget (csvProps row u) c = none) := by
  rw [dget_csvProps_limit row u c hc]
  constructor <;> intro h
  · have hne : s ≠ "" := by
      intro he
      subst he
      simp [pyIsdigit, String.isEmpty] at h
    simp [digitCell, hs, h, hne]
  · simp [digitCell, hs, h]

theorem csv_numeric_limit_digit_or_omitted_witness :
    dget (csvProps rowW1 "42") "max_height" = some (.vInt 200) ∧
    dget (csvProps rowW1 "42") "max_width" = none :=
  ⟨(csv_numeric_limit_digit_or_omitted rowW1 "42" "max_height" "200"
      (Or.inl rfl) rfl).1 rfl,
   (csv_numeric_limit_digit_or_omitted rowW1 "42" "max_width" "n/a"
      (Or.inr (Or.inl rfl)) rfl).2 rfl⟩

/-- C1: a CSV row whose `uid` cell is present and non-empty and whose
`lat`/`lon` cells are present (and parse as Python floats, the values the
claim's `float(lon)`/`float(lat)` denote) contributes exactly one feature
to the output, in position, with `properties.uid` the row's uid string and
coordinates `[float(lon), float(lat)]`, longitude first. -/
theorem csv_valid_row_emits_unique_feature (row : Row) (u slat slon : String)
    (x y : Rat) (pre post : List Row) (fs₁ fs₂ : List CsvFeature)
    (ds₁ ds₂ : List DropReason)
    (hu : row "uid" = some u) (hne : u ≠ "")
    (hlat : row "lat" = some slat) (hlon : row "lon" = some slon)
    (hx : pyFloat slon = some x) (hy : pyFloat slat = some y)
    (h₁ : processCsv pre = some (fs₁, ds₁))
    (h₂ : processCsv post = some (fs₂, ds₂)) :
    processRow row = .emit ⟨csvProps row u, [x, y]⟩ ∧
    dget (csvProps row u) "uid" = some (.vStr u) ∧
    processCsv (pre ++ row :: post) =
      some (fs₁ ++ ⟨csvProps row u, [x, y]⟩ :: fs₂, ds₁ ++ ds₂) := by
  have hrow : processRow row = .emit ⟨csvProps row u, [x, y]⟩ := by
    simp [processRow, hu, hne, hlat, hlon, hx, hy]
  refine ⟨hrow, ?_, ?_⟩
  · simp [csvProps, dget]
  · rw [processCsv_append, h₁]
    simp [processCsv, hrow, h₂]

theorem csv_valid_row_emits_unique_feature_witness :
    processCsv ([] ++ rowW1 :: []) =
      some ([] ++ (⟨csvProps rowW1 "42", [mkRat 115 10, mkRat 481 10]⟩ :
        CsvFeature) :: [], [] ++ []) :=
  (csv_valid_row_emits_unique_feature rowW1 "42" "48.1" "11.5"
    (mkRat 115 10) (mkRat 481 10) [] [] [] [] [] []
    rfl (by decide) rfl rfl rfl rfl rfl rfl).2.2

/-- C3 counterexample: the claim says a row whose `lat`/`lon` is present
but unparseable is dropped with a logged reason and processing continues;
in the code `float(row['lat'])` raises an uncaught `ValueError`, aborting
the run, so even a following valid row yields no output at all. -/
theorem csv_unparseable_latlon_aborts_counterexample :
    processCsv [rowBadLat, rowW1] = none ∧
    processCsv [rowW1] =
      some ([⟨csvProps rowW1 "42", [mkRat 115 10, mkRat 481 10]⟩], []) :=
  ⟨rfl, rfl⟩

/-- C3 (amended): a CSV row with missing/empty `uid`, or with the `lat` or
`lon` column missing, yields zero features, is dropped with a logged
reason, and processing continues; but a row whose `lat`/`lon` cells are
present and not parseable as floats raises an uncaught `ValueError` that
aborts the entire run instead of being dropped. -/
theorem csv_invalid_row_drop_or_abort :
    (∀ row : Row, (row "uid" = none ∨ row "uid" = some "") →
      processRow row = .skip .uidMissing) ∧
    (∀ (row : Row) (u : String), row "uid" = some u → u ≠ "" →
      (row "lat" = none ∨ row "lon" = none) →
      processRow row = .skip .latlonMissing) ∧
    (∀ (row : Row) (d : DropReason) (pre post : List Row)
      (fs₁ fs₂ : List CsvFeature) (ds₁ ds₂ : List DropReason),
      processRow row = .skip d →
      processCsv pre = some (fs₁, ds₁) → processCsv post = some (fs₂, ds₂) →
      processCsv (pre ++ row :: post) =
        some (fs₁ ++ fs₂, ds₁ ++ d :: ds₂)) ∧
    (∀ (row : Row) (u slat slon : String),
      row "uid" = some u → u ≠ "" →
      row "lat" = some slat → row "lon" = some slon →
      (pyFloat slon = none ∨ pyFloat slat = none) →
      processRow row = .crash ∧
      ∀ pre post : List Row, processCsv (pre ++ row :: post) = none) := by
  refine ⟨?_, ?_, ?_, ?_⟩
  · intro row h
    rcases h with h | h <;> simp [processRow, h]
  · intro row u hu hne h
    rcases h with h | h
    · simp [processRow, hu, hne, h]
    · cases hlat : row "lat" <;> simp [processRow, hu, hne, h, hlat]
  · intro row d pre post fs₁ fs₂ ds₁ ds₂ hskip h₁ h₂
    rw [processCsv_append, h₁]
    simp [processCsv, hskip, h₂]
  · intro row u slat slon hu hne hlat hlon hp
    have hcrash : processRow row = .crash := by
      rcases hp with hp | hp
      · cases hq : pyFloat slat <;> simp [processRow, hu, hne, hlat, hlon, hp, hq]
      · cases hq : pyFloat slon <;> simp [processRow, hu, hne, hlat, hlon, hp, hq]
    exact ⟨hcrash, fun pre post => processCsv_crash row pre post hcrash⟩

theorem csv_invalid_row_drop_or_abort_witness :
    processRow rowNoUid = .skip .uidMissing ∧
    processCsv ([] ++ rowNoUid :: [rowW1]) =
      some ([] ++ [⟨csvProps rowW1 "42", [mkRat 115 10, mkRat 481 10]⟩],
        [] ++ .uidMissing :: []) :=
  ⟨csv_invalid_row_drop_or_abort.1 rowNoUid (Or.inl rfl),
   csv_invalid_row_drop_or_abort.2.2.1 rowNoUid .uidMissing [] [rowW1]
     [] [⟨csvProps rowW1 "42", [mkRat 115 10, mkRat 481 10]⟩] [] []
     (csv_invalid_row_drop_or_abort.1 rowNoUid (Or.inl rfl)) rfl rfl⟩

theorem dget_step_ms_ne (d : Dict) (k : String) (h : k ≠ "max_stay") :
    dget (step_ms d) k = dget d k :=
  dget_dset_ne _ _ _ _ h

theorem step_oh_some_ne (d d' : Dict) (k : String) (h : step_oh d = some d')
    (hk : k ≠ "opening_hours") : dget d' k = dget d k := by
  unfold step_oh at h
  split at h
  · injection h with h
    subst h
    exact dget_dset_ne _ _ _ _ hk
  · cases h

theorem step_fee_some_ne (d d' : Dict) (k : String) (h : step_fee d = some d')
    (hk : k ≠ "fee_description") : dget d' k = dget d k := by
  unfold step_fee at h
  split at h
  · injection h with h
    subst h
    exact dget_dset_ne _ _ _ _ hk
  · cases h

theorem dget_step_enums_ne (d : Dict) (k : String) (h1 : k ≠ "purpose")
    (h2 : k ≠ "type") (h3 : k ≠ "supervision_type")
    (h4 : k ≠ "park_and_ride_type") : dget (step_enums d) k = dget d k := by
  simp only [step_enums]
  rw [dget_dset_ne _ _ _ _ h4, dget_dset_ne _ _ _ _ h3,
    dget_dset_ne _ _ _ _ h2, dget_dset_ne _ _ _ _ h1]

theorem dget_step_addr_ne (d : Dict) (k : String) (h : k ≠ "address") :
    dget (step_addr d) k = dget d k := by
  unfold step_addr
  split
  · exact dget_dset_ne _ _ _ _ h
  · rfl

theorem step_tail_some_ne (now : String) (d d' : Dict)
    (h : step_tail now d = some d') (k : String)
    (h1 : k ≠ "static_data_updated_at") (h2 : k ≠ "lat") (h3 : k ≠ "lon")
    (h4 : k ≠ "has_realtime_data") : dget d' k = dget d k := by
  unfold step_tail at h
  split at h
  · injection h with h
    subst h
    rw [dget_dset_ne _ _ _ _ h4, dget_dset_ne _ _ _ _ h3,
      dget_dset_ne _ _ _ _ h2, dget_dset_ne _ _ _ _ h1]
  · cases h

theorem mapSites_inv (now : String) (d out : Dict)
    (h : mapSitesTransforms now d = some out) :
    ∃ d₁ d₂ d₃, step_mh d = some d₁ ∧ step_oh (step_ms d₁) = some d₂ ∧
      step_fee d₂ = some d₃ ∧
      step_tail now (step_addr (step_enums d₃)) = some out := by
  unfold mapSitesTransforms at h
  split at h
  · cases h
  · rename_i d₁ h1
    split at h
    · cases h
    · rename_i d₂ h2
      split at h
      · cases h
      · rename_i d₃ h3
        exact ⟨d₁, d₂, d₃, h1, h2, h3, h⟩

theorem mapSites_dget_after_mh (now : String) (d out : Dict) (k : String)
    (h : mapSitesTransforms now d = some out)
    (hk1 : k ≠ "max_stay") (hk2 : k ≠ "opening_hours")
    (hk3 : k ≠ "fee_description") (hk4 : k ≠ "purpose") (hk5 : k ≠ "type")
    (hk6 : k ≠ "supervision_type") (hk7 : k ≠ "park_and_ride_type")
    (hk8 : k ≠ "address") (hk9 : k ≠ "static_data_updated_at")
    (hk10 : k ≠ "lat") (hk11 : k ≠ "lon") (hk12 : k ≠ "has_realtime_data") :
    ∃ d₁, step_mh d = some d₁ ∧ dget out k = dget d₁ k := by
  obtain ⟨d₁, d₂, d₃, h1, h2, h3, h4⟩ := mapSites_inv now d out h
  refine ⟨d₁, h1, ?_⟩
  rw [step_tail_some_ne now _ _ h4 k hk9 hk10 hk11 hk12,
    dget_step_addr_ne _ _ hk8, dget_step_enums_ne _ _ hk4 hk5 hk6 hk7,
    step_fee_some_ne _ _ _ h3 hk3, step_oh_some_ne _ _ _ h2 hk2,
    dget_step_ms_ne _ _ hk1]

theorem mapSites_dget_max_stay (now : String) (d out : Dict)
    (h : mapSitesTransforms now d = some out) :
    ∃ d₁, step_mh d = some d₁ ∧
      dget out "max_stay" = dget (step_ms d₁) "max_stay" := by
  obtain ⟨d₁, d₂, d₃, h1, h2, h3, h4⟩ := mapSites_inv now d out h
  refine ⟨d₁, h1, ?_⟩
  rw [step_tail_some_ne now _ _ h4 _ (by decide) (by decide) (by decide)
      (by decide),
    dget_step_addr_ne _ _ (by decide),
    dget_step_enums_ne _ _ (by decide) (by decide) (by decide) (by decide),
    step_fee_some_ne _ _ _ h3 (by decide), step_oh_some_ne _ _ _ h2 (by decide)]

theorem step_mh_some_ne (d d₁ : Dict) (k : String) (h : step_mh d = some d₁)
    (hk : k ≠ "max_height") : dget d₁ k = dget d k := by
  unfold step_mh at h
  rcases Option.map_eq_some'.mp h with ⟨v, hv, h2⟩
  subst h2
  exact dget_dset_ne _ _ _ _ hk

/-- C2 (amended): in the sites pipeline the ×100 conversion is applied to
`max_height` and to no other field; a float `max_height` is rounded (half
to even) and then multiplied by 100, so the float cell 2.3 yields
`max_height == 200` (not 230); `max_stay` is only rounded, never scaled,
and all keys outside the transform's own key set are left unchanged. -/
theorem sites_max_height_conversion (now : String) (d out : Dict) (q : Rat)
    (hq : dget d "max_height" = some (.vFloat q))
    (h : mapSitesTransforms now d = some out) :
    dget out "max_height" = some (.vInt (pyRound q * 100)) ∧
    (∀ m : Rat, dget d "max_stay" = some (.vFloat m) →
      dget out "max_stay" = some (.vInt (pyRound m))) ∧
    (∀ n : Int, dget d "max_stay" = some (.vInt n) →
      dget out "max_stay" = some (.vInt n)) ∧
    (∀ k, k ∉ sitesTouchedKeys → dget out k = dget d k) := by
  refine ⟨?_, ?_, ?_, ?_⟩
  · obtain ⟨d₁, h1, hk⟩ := mapSites_dget_after_mh now d out "max_height" h
      (by decide) (by decide) (by decide) (by decide) (by decide) (by decide)
      (by decide) (by decide) (by decide) (by decide) (by decide) (by decide)
    rw [hk]
    unfold step_mh at h1
    rw [hq] at h1
    simp only [Option.getD_some, maxHeightTransform, Option.map_some'] at h1
    injection h1 with h1
    subst h1
    exact dget_dset_self _ _ _
  · intro m hm
    obtain ⟨d₁, h1, hk⟩ := mapSites_dget_max_stay now d out h
    rw [hk]
    have hd1 : dget d₁ "max_stay" = some (.vFloat m) :=
      (step_mh_some_ne d d₁ "max_stay" h1 (by decide)).trans hm
    unfold step_ms
    rw [hd1]
    simp only [Option.getD_some, roundIfFloat]
    exact dget_dset_self _ _ _
  · intro n hn
    obtain ⟨d₁, h1, hk⟩ := mapSites_dget_max_stay now d out h
    rw [hk]
    have hd1 : dget d₁ "max_stay" = some (.vInt n) :=
      (step_mh_some_ne d d₁ "max_stay" h1 (by decide)).trans hn
    unfold step_ms
    rw [hd1]
    simp only [Option.getD_some, roundIfFloat]
    exact dget_dset_self _ _ _
  · intro k hk
    simp only [sitesTouchedKeys, List.mem_cons, List.not_mem_nil, or_false,
      not_or] at hk
    obtain ⟨k1, k2, k3, k4, k5, k6, k7, k8, k9, k10, k11, k12, k13⟩ := hk
    obtain ⟨d₁, h1, hket⟩ := mapSites_dget_after_mh now d out k h
      k2 k3 k4 k5 k6 k7 k8 k9 k10 k11 k12 k13
    rw [hket]
    exact step_mh_some_ne d d₁ k h1 k1

/-- C2 counterexample: the claim's end-to-end scenario says a float
`max_height` cell of 2.3 yields 230; the code's
`round(2.3) * 100` yields 200. -/
theorem sites_max_height_230_counterexample :
    (mapSitesTransforms "T" dEx2).map (fun d => dget d "max_height") =
      some (some (.vInt 200)) ∧
    some (some (PyVal.vInt 200)) ≠ some (some (PyVal.vInt 230)) := by
  refine ⟨rfl, ?_⟩
  simp

theorem sites_max_height_conversion_witness :
    mapSitesTransforms "T" dEx2 = some outEx2 ∧
    dget outEx2 "max_height" = some (.vInt 200) ∧
    dget outEx2 "max_stay" = some (.vInt 4) ∧
    dget outEx2 "name" = some (.vStr "N") := by
  have h : mapSitesTransforms "T" dEx2 = some outEx2 := rfl
  have t := sites_max_height_conversion "T" dEx2 outEx2 (mkRat 23 10) rfl h
  exact ⟨h, t.1, t.2.1 (mkRat 45 10) rfl, (t.2.2.2 "name" (by decide)).trans rfl⟩

theorem replaceL_of_no_occurrence (pat rep : List Char) :
    ∀ l : List Char, ¬ pat <:+: l → replaceL pat rep l = l := by
  intro l
  induction l with
  | nil => intro _; simp [replaceL]
  | cons c cs ih =>
      intro h
      simp only [replaceL]
      rw [if_neg]
      · rw [ih (fun hc => h ( List.infix_cons hc))]
      · rintro ⟨hne, hp⟩
        exact h ( List.isPrefixOf_iff_prefix.mp hp).isInfix

theorem replaceL_leftmost (pat rep : List Char) (hne : pat ≠ []) :
    ∀ (a b : List Char),
      (∀ a' b', a' ++ pat ++ b' = a ++ pat ++ b → a.length ≤ a'.length) →
      replaceL pat rep (a ++ pat ++ b) = a ++ rep ++ replaceL pat rep b := by
  intro a
  induction a with
  | nil =>
      intro b hmin
      obtain ⟨c, pt, rfl⟩ : ∃ c pt, pat = c :: pt := by
        cases pat with
        | nil => exact absurd rfl hne
        | cons c pt => exact ⟨c, pt, rfl⟩
      simp only [List.nil_append, List.cons_append, replaceL]
      rw [if_pos]
      · simp [List.drop_left]
      · refine ⟨hne, List.isPrefixOf_iff_prefix.mpr ⟨b, ?_⟩⟩
        simp
  | cons c a' ih =>
      intro b hmin
      simp only [List.cons_append, replaceL]
      rw [if_neg]
      · have hmin' : ∀ a'' b'', a'' ++ pat ++ b'' = a' ++ pat ++ b →
            a'.length ≤ a''.length := by
          intro a'' b'' heq
          have h1 := hmin (c :: a'') b'' (by simp [heq])
          simpa using h1
        rw [ih b hmin']
      · rintro ⟨-, hp⟩
        obtain ⟨t, ht⟩ := List.isPrefixOf_iff_prefix.mp hp
        have h0 := hmin [] t (by simpa using ht)
        simp at h0

/-- C6: in the sites pipeline the assembled `opening_hours` string is
rewritten with `.replace("00:00-00:00", "00:00-24:00")`: the output field
equals `ohReplace` of the input; a string without the literal is left
unchanged; and at the leftmost occurrence the prefix is kept, the literal
becomes `00:00-24:00`, and the rewrite continues on the remainder
(Python's left-to-right, non-overlapping `str.replace`). -/
theorem sites_opening_hours_rewrite (now : String) (d out : Dict) (s : String)
    (hs : dget d "opening_hours" = some (.vStr s))
    (h : mapSitesTransforms now d = some out) :
    dget out "opening_hours" = some (.vStr (ohReplace s)) ∧
    (¬ ("00:00-00:00".data <:+: s.data) → ohReplace s = s) ∧
    (∀ a b : List Char, s.data = a ++ "00:00-00:00".data ++ b →
      (∀ a' b' : List Char,
        a' ++ "00:00-00:00".data ++ b' = a ++ "00:00-00:00".data ++ b →
        a.length ≤ a'.length) →
      (ohReplace s).data =
        a ++ "00:00-24:00".data ++
          replaceL "00:00-00:00".data "00:00-24:00".data b) := by
  refine ⟨?_, ?_, ?_⟩
  · obtain ⟨d₁, d₂, d₃, h1, h2, h3, h4⟩ := mapSites_inv now d out h
    have e1 : dget out "opening_hours" = dget d₂ "opening_hours" := by
      rw [step_tail_some_ne now _ _ h4 _ (by decide) (by decide) (by decide)
          (by decide),
        dget_step_addr_ne _ _ (by decide),
        dget_step_enums_ne _ _ (by decide) (by decide) (by decide) (by decide),
        step_fee_some_ne _ _ _ h3 (by decide)]
    have hms : dget (step_ms d₁) "opening_hours" = some (.vStr s) := by
      rw [dget_step_ms_ne _ _ (by decide), step_mh_some_ne d d₁ _ h1 (by decide)]
      exact hs
    unfold step_oh at h2
    split at h2
    · rename_i s' hs'
      rw [hms] at hs'
      injection hs' with hs'
      injection hs' with hs'
      subst hs'
      injection h2 with h2
      rw [e1, ← h2]
      exact dget_dset_self _ _ _
    · rename_i hns
      exact absurd hms (hns s)
  · intro hni
    have hr := replaceL_of_no_occurrence "00:00-00:00".data "00:00-24:00".data
      s.data hni
    rw [ohReplace, hr]
  · intro a b hab hmin
    show replaceL "00:00-00:00".data "00:00-24:00".data s.data = _
    rw [hab]
    exact replaceL_leftmost "00:00-00:00".data "00:00-24:00".data (by decide)
      a b hmin

theorem sites_opening_hours_rewrite_witness :
    dget outEx3 "opening_hours" = some (.vStr (ohReplace "00:00-00:00")) ∧
    (ohReplace "00:00-00:00").data =
      [] ++ "00:00-24:00".data ++
        replaceL "00:00-00:00".data "00:00-24:00".data [] ∧
    ohReplace "24/7" = "24/7" := by
  have t3 := sites_opening_hours_rewrite "T" dEx3 outEx3 "00:00-00:00" rfl rfl
  have t4 := sites_opening_hours_rewrite "T" dEx4 outEx4 "24/7" rfl rfl
  exact ⟨t3.1, t3.2.2 [] [] rfl (fun a' b' _ => Nat.zero_le _),
    t4.2.1 (by decide)⟩

theorem dget_filter_key (d : Dict) (pred : String × PyVal → Bool) (k : String)
    (hp : ∀ v, pred (k, v) = true) : dget (d.filter pred) k = dget d k := by
  induction d with
  | nil => rfl
  | cons p rest ih =>
      obtain ⟨k₀, v₀⟩ := p
      by_cases hk : k₀ = k
      · subst hk
        rw [List.filter_cons, hp v₀]
        simp [dget]
      · cases hpred : pred (k₀, v₀) <;>
          simp [List.filter_cons, hpred, dget, hk, ih]

theorem mapSpots_supervision (osm now : String) (d out : Dict)
    (h : mapSpotsTransforms osm now d = some out) :
    dget out "supervision_type" = dget d "supervision_type" := by
  simp only [mapSpotsTransforms] at h
  split at h
  · injection h with h
    subst h
    rw [dget_dset_ne _ _ _ _ (by decide), dget_dset_ne _ _ _ _ (by decide),
      dget_dset_ne _ _ _ _ (by decide), dget_dset_ne _ _ _ _ (by decide),
      dget_dset_ne _ _ _ _ (by decide), dget_dset_ne _ _ _ _ (by decide),
      dget_dset_ne _ _ _ _ (by decide)]
    exact dget_filter_key d _ _ (fun _ => rfl)
  · cases h

/-- C5 (amended): every key of the enum tables maps to its canonical code
up to case/whitespace; in the sites pipeline an unrecognized `type` falls
back to `OFF_STREET_PARKING_GROUND` and unrecognized `purpose` and
`supervision_type` map to `None`; in the spots pipeline `type` and
`purpose` are remapped the same way but an unrecognized `type` maps to
`None` (no fallback), and `supervision_type` is not remapped at all — the
raw cell value is passed through unchanged. -/
theorem enum_mapping_behaviour :
    (∀ s : String, pyLower (pyStrip s) = "parkplatz" →
      sitesType (.vStr s) = "OFF_STREET_PARKING_GROUND") ∧
    (∀ s, pyLower (pyStrip s) = "parkhaus" →
      sitesType (.vStr s) = "CAR_PARK") ∧
    (∀ s, pyLower (pyStrip s) = "tiefgarage" →
      sitesType (.vStr s) = "UNDERGROUND") ∧
    (∀ s, pyLower (pyStrip s) ∉
        (["parkplatz", "parkhaus", "tiefgarage"] : List String) →
      sitesType (.vStr s) = "OFF_STREET_PARKING_GROUND") ∧
    (∀ s, pyLower (pyStrip s) = "auto" → sitesPurpose (.vStr s) = some "CAR") ∧
    (∀ s, pyLower (pyStrip s) = "fahrrad" →
      sitesPurpose (.vStr s) = some "BIKE") ∧
    (∀ s, pyLower (pyStrip s) ∉ (["auto", "fahrrad"] : List String) →
      sitesPurpose (.vStr s) = none) ∧
    (sitesSupervision (.vBool true) = some "YES" ∧
      sitesSupervision (.vBool false) = some "NO") ∧
    (∀ s, pyLower (pyStrip s) = "video" →
      sitesSupervision (.vStr s) = some "VIDEO") ∧
    (∀ s, pyLower (pyStrip s) = "ja" →
      sitesSupervision (.vStr s) = some "YES") ∧
    (∀ s, pyLower (pyStrip s) = "nein" →
      sitesSupervision (.vStr s) = some "NO") ∧
    (∀ s, pyLower (pyStrip s) = "bewacht" →
      sitesSupervision (.vStr s) = some "ATTENDED") ∧
    (∀ s, pyLower (pyStrip s) ∉
        (["video", "ja", "nein", "bewacht"] : List String) →
      sitesSupervision (.vStr s) = none) ∧
    (∀ s, pyLower (pyStrip s) = "parkplatz" →
      spotsType (.vStr s) = some "OFF_STREET_PARKING_GROUND") ∧
    (∀ s, pyLower (pyStrip s) = "parkhaus" →
      spotsType (.vStr s) = some "CAR_PARK") ∧
    (∀ s, pyLower (pyStrip s) = "tiefgarage" →
      spotsType (.vStr s) = some "UNDERGROUND") ∧
    (∀ s, pyStrip (pyLower (pyStrip s)) ∉
        (["parkplatz", "parkhaus", "tiefgarage"] : List String) →
      spotsType (.vStr s) = none) ∧
    (∀ v : PyVal, spotsPurpose v = sitesPurpose v) ∧
    (∀ (osm now : String) (d out : Dict),
      mapSpotsTransforms osm now d = some out →
      dget out "supervision_type" = dget d "supervision_type") := by
  refine ⟨?_, ?_, ?_, ?_, ?_, ?_, ?_, ⟨rfl, rfl⟩, ?_, ?_, ?_, ?_, ?_, ?_, ?_,
    ?_, ?_, fun v => rfl, mapSpots_supervision⟩
  · intro s h
    simp [sitesType, normalizeText, typeMapping, h]
  · intro s h
    simp [sitesType, normalizeText, typeMapping, h]
  · intro s h
    simp [sitesType, normalizeText, typeMapping, h]
  · intro s h
    simp only [List.mem_cons, List.not_mem_nil, or_false, not_or] at h
    obtain ⟨h1, h2, h3⟩ := h
    simp [sitesType, normalizeText, typeMapping, h1, h2, h3]
  · intro s h
    simp [sitesPurpose, normalizeText, purposeTypeMapping, h]
  · intro s h
    simp [sitesPurpose, normalizeText, purposeTypeMapping, h]
  · intro s h
    simp only [List.mem_cons, List.not_mem_nil, or_false, not_or] at h
    obtain ⟨h1, h2⟩ := h
    simp [sitesPurpose, normalizeText, purposeTypeMapping, h1, h2]
  · intro s h
    simp [sitesSupervision, normalizeText, supervisionTypeMapping, h]
  · intro s h
    simp [sitesSupervision, normalizeText, supervisionTypeMapping, h]
  · intro s h
    simp [sitesSupervision, normalizeText, supervisionTypeMapping, h]
  · intro s h
    simp [sitesSupervision, normalizeText, supervisionTypeMapping, h]
  · intro s h
    simp only [List.mem_cons, List.not_mem_nil, or_false, not_or] at h
    obtain ⟨h1, h2, h3, h4⟩ := h
    simp [sitesSupervision, normalizeText, supervisionTypeMapping, h1, h2, h3, h4]
  · intro s h
    have hps : pyStrip "parkplatz" = "parkplatz" := rfl
    simp [spotsType, normalizeText, typeMapping, h, hps]
  · intro s h
    have hps : pyStrip "parkhaus" = "parkhaus" := rfl
    simp [spotsType, normalizeText, typeMapping, h, hps]
  · intro s h
    have hps : pyStrip "tiefgarage" = "tiefgarage" := rfl
    simp [spotsType, normalizeText, typeMapping, h, hps]
  · intro s h
    simp only [List.mem_cons, List.not_mem_nil, or_false, not_or] at h
    obtain ⟨h1, h2, h3⟩ := h
    simp [spotsType, normalizeText, typeMapping, h1, h2, h3]

/-- C5 counterexample: the claim asserts that in both pipelines an
unrecognized raw `type` falls back to `OFF_STREET_PARKING_GROUND` and that
`supervision_type` keys map to canonical codes; in the spots pipeline an
unrecognized type maps to `None`, and a raw supervision value `"ja"` is
passed through unmapped instead of becoming `"YES"`. -/
theorem enum_mapping_counterexample :
    spotsType (.vStr "garage") = none ∧
    (none : Option String) ≠ some "OFF_STREET_PARKING_GROUND" ∧
    (mapSpotsTransforms "0:0" "T" dSpotsEx).map
      (fun d => dget d "supervision_type") = some (some (.vStr "ja")) := by
  refine ⟨rfl, by simp, rfl⟩

theorem enum_mapping_behaviour_witness :
    sitesType (.vStr " Parkhaus ") = "CAR_PARK" ∧
    sitesType (.vStr "Garage") = "OFF_STREET_PARKING_GROUND" ∧
    sitesSupervision (.vStr " JA ") = some "YES" ∧
    spotsType (.vStr "Tiefgarage") = some "UNDERGROUND" ∧
    spotsType (.vStr "Garage") = none ∧
    dget outSpotsEx "supervision_type" = dget dSpotsEx "supervision_type" :=
  ⟨enum_mapping_behaviour.2.1 " Parkhaus " rfl,
   enum_mapping_behaviour.2.2.2.1 "Garage" (by decide),
   enum_mapping_behaviour.2.2.2.2.2.2.2.2.2.1 " JA " rfl,
   enum_mapping_behaviour.2.2.2.2.2.2.2.2.2.2.2.2.2.2.2.1 "Tiefgarage" rfl,
   enum_mapping_behaviour.2.2.2.2.2.2.2.2.2.2.2.2.2.2.2.2.1 "Garage" (by decide),
   enum_mapping_behaviour.2.2.2.2.2.2.2.2.2.2.2.2.2.2.2.2.2.2 "0:0" "T"
     dSpotsEx outSpotsEx rfl⟩

theorem handleLoop_append (pfx src : String) (mapR : SheetRow → Option Dict)
    (validate : Dict → Except String Dict) (l₁ l₂ : List SheetRow) :
    handleLoop pfx src mapR validate (l₁ ++ l₂) =
      match handleLoop pfx src mapR validate l₁ with
      | none => none
      | some p₁ =>
          (handleLoop pfx src mapR validate l₂).map
            (fun p₂ => (p₁.1 ++ p₂.1, p₁.2 ++ p₂.2)) := by
  induction l₁ with
  | nil =>
      simp only [List.nil_append, handleLoop]
      cases handleLoop pfx src mapR validate l₂ <;> simp
  | cons r rs ih =>
      simp only [List.cons_append, handleLoop, List.append_eq]
      by_cases hskip : isVNone (r.headD .vNone) = true
      · rw [if_pos hskip, if_pos hskip, ih]
      · rw [if_neg hskip, if_neg hskip]
        split
        · rfl
        · split
          · split
            · rw [ih]
              cases handleLoop pfx src mapR validate rs with
              | none => rfl
              | some p₁ =>
                  cases handleLoop pfx src mapR validate l₂ with
                  | none => rfl
                  | some p₂ => simp
            · rfl
          · rw [ih]
            cases handleLoop pfx src mapR validate rs with
            | none => rfl
            | some p₁ =>
                cases handleLoop pfx src mapR validate l₂ with
                | none => rfl
                | some p₂ => simp

theorem handleLoop_cons_error (pfx srcUid : String)
    (mapR : SheetRow → Option Dict) (validate : Dict → Except String Dict)
    (r : SheetRow) (rs : List SheetRow) (d : Dict) (e : String)
    (hr : isVNone (r.headD .vNone) = false) (hm : mapR r = some d)
    (hv : validate d = .error e) :
    handleLoop pfx srcUid mapR validate (r :: rs) =
      (handleLoop pfx srcUid mapR validate rs).map
        (fun q => (q.1, mkImpErr pfx srcUid d e :: q.2)) := by
  rw [handleLoop, if_neg (by cases r <;> simp_all [List.headD])]
  split
  · rename_i hm'
    rw [hm] at hm'
    cases hm'
  · rename_i d' hm'
    rw [hm] at hm'
    injection hm' with hm'
    subst hm'
    split
    · rename_i vd hv'
      rw [hv] at hv'
      cases hv'
    · rename_i e' hv'
      rw [hv] at hv'
      injection hv' with hv'
      subst hv'
      rfl

/-- C4: in both spreadsheet pipelines a per-row `ValidationError` is
caught, converted into an import-error record carrying the source uid, the
row dict's `uid` when known and a message embedding the record and the
error detail; the failed row contributes no feature, its error goes only
to the separate error list, and the rows before and after it are processed
unchanged. -/
theorem xlsx_validation_error_isolated :
    (∀ (srcUid : String) (mapR : SheetRow → Option Dict)
      (validate : Dict → Except String Dict) (pre post : List SheetRow)
      (r : SheetRow) (d : Dict) (e : String)
      (fs₁ fs₂ : List SheetFeature) (es₁ es₂ : List ImpErr),
      isVNone (r.headD .vNone) = false → mapR r = some d →
      validate d = .error e →
      handleSites srcUid mapR validate pre = some (fs₁, es₁) →
      handleSites srcUid mapR validate post = some (fs₂, es₂) →
      handleSites srcUid mapR validate (pre ++ r :: post) =
        some (fs₁ ++ fs₂,
          es₁ ++ mkImpErr "invalid static parking site data " srcUid d e
            :: es₂)) ∧
    (∀ (srcUid : String) (mapR : SheetRow → Option Dict)
      (validate : Dict → Except String Dict) (pre post : List SheetRow)
      (r : SheetRow) (d : Dict) (e : String)
      (fs₁ fs₂ : List SheetFeature) (es₁ es₂ : List ImpErr),
      isVNone (r.headD .vNone) = false → mapR r = some d →
      validate d = .error e →
      handleSpots srcUid mapR validate pre = some (fs₁, es₁) →
      handleSpots srcUid mapR validate post = some (fs₂, es₂) →
      handleSpots srcUid mapR validate (pre ++ r :: post) =
        some (fs₁ ++ fs₂,
          es₁ ++ mkImpErr "invalid static parking spot data " srcUid d e
            :: es₂)) ∧
    (∀ (pfx srcUid : String) (d : Dict) (e : String),
      (mkImpErr pfx srcUid d e).sourceUid = srcUid ∧
      (mkImpErr pfx srcUid d e).recordUid = dget d "uid" ∧
      (mkImpErr pfx srcUid d e).message =
        pfx ++ pyStr (.vDict d) ++ ": " ++ e) := by
  have main : ∀ (pfx srcUid : String) (mapR : SheetRow → Option Dict)
      (validate : Dict → Except String Dict) (pre post : List SheetRow)
      (r : SheetRow) (d : Dict) (e : String)
      (fs₁ fs₂ : List SheetFeature) (es₁ es₂ : List ImpErr),
      isVNone (r.headD .vNone) = false → mapR r = some d →
      validate d = .error e →
      handleLoop pfx srcUid mapR validate pre = some (fs₁, es₁) →
      handleLoop pfx srcUid mapR validate post = some (fs₂, es₂) →
      handleLoop pfx srcUid mapR validate (pre ++ r :: post) =
        some (fs₁ ++ fs₂, es₁ ++ mkImpErr pfx srcUid d e :: es₂) := by
    intro pfx srcUid mapR validate pre post r d e fs₁ fs₂ es₁ es₂ hr hm hv h₁ h₂
    rw [handleLoop_append, h₁,
      handleLoop_cons_error pfx srcUid mapR validate r post d e hr hm hv, h₂]
    rfl
  exact ⟨fun srcUid => main _ srcUid, fun srcUid => main _ srcUid,
    fun pfx srcUid d e => ⟨rfl, rfl, rfl⟩⟩

theorem xlsx_validation_error_isolated_witness :
    handleSites "src" (fun _ => some [("uid", .vStr "u1")])
      (fun _ => .error "bad") ([] ++ [PyVal.vStr "x"] :: []) =
      some (([] : List SheetFeature) ++ [],
        ([] : List ImpErr) ++ mkImpErr "invalid static parking site data "
          "src" [("uid", .vStr "u1")] "bad" :: []) :=
  xlsx_validation_error_isolated.1 "src" (fun _ => some [("uid", .vStr "u1")])
    (fun _ => .error "bad") [] [] [.vStr "x"] [("uid", .vStr "u1")] "bad"
    [] [] [] [] rfl rfl rfl rfl rfl

theorem handleLoop_mapR_none_aborts (pfx src : String)
    (mapR : SheetRow → Option Dict) (validate : Dict → Except String Dict)
    (pre post : List SheetRow) (r : SheetRow)
    (hr : isVNone (r.headD .vNone) = false) (hm : mapR r = none) :
    handleLoop pfx src mapR validate (pre ++ r :: post) = none := by
  rw [handleLoop_append]
  cases h₁ : handleLoop pfx src mapR validate pre with
  | none => rfl
  | some p₁ =>
      have h2 : handleLoop pfx src mapR validate (r :: post) = none := by
        rw [handleLoop, if_neg (by cases r <;> simp_all [List.headD]), hm]
      simp [h2]

/-- C10: a sites row whose `max_height` value is `None` (column absent
from the resolved mapping, or empty cell) makes
`map_row_to_parking_site_dict` raise an uncaught `TypeError`
(`None * 100`); because row mapping runs outside the per-row try/except,
the whole run aborts instead of recording a row-level error. -/
theorem sites_none_max_height_aborts (now : String) (d : Dict)
    (hmh : (dget d "max_height").getD .vNone = .vNone) :
    mapSitesTransforms now d = none ∧
    (∀ (srcUid : String) (mapR : SheetRow → Option Dict)
      (validate : Dict → Except String Dict) (pre post : List SheetRow)
      (r : SheetRow), isVNone (r.headD .vNone) = false → mapR r = none →
      handleSites srcUid mapR validate (pre ++ r :: post) = none) := by
  constructor
  · unfold mapSitesTransforms step_mh
    rw [hmh]
    rfl
  · intro srcUid mapR validate pre post r hr hm
    exact handleLoop_mapR_none_aborts _ _ mapR validate pre post r hr hm

theorem sites_none_max_height_aborts_witness :
    mapSitesTransforms "T" [("max_height", PyVal.vNone)] = none ∧
    handleSites "s" (fun _ => none) (fun d => .ok d)
      ([] ++ [PyVal.vStr "x"] :: []) = none := by
  have t := sites_none_max_height_aborts "T" [("max_height", PyVal.vNone)] rfl
  exact ⟨t.1, t.2 "s" (fun _ => none) (fun d => .ok d) [] [] [.vStr "x"]
    rfl rfl⟩

mutual
theorem hasNull_serialize :
    ∀ v : PyVal, hasUnset v = false → hasNull (serialize v) = false
  | .vBool b, _ => by simp [serialize, hasNull]
  | .vInt n, _ => by simp [serialize, hasNull]
  | .vFloat q, _ => by simp [serialize, hasNull]
  | .vStr s, _ => by simp [serialize, hasNull]
  | .vNone, _ => by simp [serialize, hasNull]
  | .vUnset, h => by simp [hasUnset] at h
  | .vDict d, _ => by simp [serialize, hasNull]
  | .vList l, h => by
      have hl : hasUnsetItems l = false := by simpa [hasUnset] using h
      have := hasNull_serializeItems l hl
      simpa [serialize, hasNull] using this
theorem hasNull_serializeItems :
    ∀ l : List PyVal, hasUnsetItems l = false →
      hasNullItems (serializeItems l) = false
  | [], _ => by simp [serializeItems, hasNullItems]
  | .vDict dd :: rest, h => by
      rw [hasUnsetItems] at h
      simp only [Bool.or_eq_false_iff] at h
      obtain ⟨h1, h2⟩ := h
      rw [serializeItems, hasNullItems]
      simp only [Bool.or_eq_false_iff]
      have hd : hasUnsetEntries dd = false := by simpa [hasUnset] using h1
      exact ⟨by simpa [hasNull] using hasNull_serializeEntries dd hd,
        hasNull_serializeItems rest h2⟩
  | .vUnset :: rest, h => by
      rw [hasUnsetItems] at h
      simp [hasUnset] at h
  | .vBool b :: rest, h => by
      rw [hasUnsetItems] at h
      simp only [Bool.or_eq_false_iff] at h
      obtain ⟨h1, h2⟩ := h
      rw [serializeItems, hasNullItems]
      simp only [Bool.or_eq_false_iff]
      exact ⟨hasNull_serialize (.vBool b) h1, hasNull_serializeItems rest h2⟩
      intro dd hdd
      cases hdd
  | .vInt n :: rest, h => by
      rw [hasUnsetItems] at h
      simp only [Bool.or_eq_false_iff] at h
      obtain ⟨h1, h2⟩ := h
      rw [serializeItems, hasNullItems]
      simp only [Bool.or_eq_false_iff]
      exact ⟨hasNull_serialize (.vInt n) h1, hasNull_serializeItems rest h2⟩
      intro dd hdd
      cases hdd
  | .vFloat q :: rest, h => by
      rw [hasUnsetItems] at h
      simp only [Bool.or_eq_false_iff] at h
      obtain ⟨h1, h2⟩ := h
      rw [serializeItems, hasNullItems]
      simp only [Bool.or_eq_false_iff]
      exact ⟨hasNull_serialize (.vFloat q) h1, hasNull_serializeItems rest h2⟩
      intro dd hdd
      cases hdd
  | .vStr s :: rest, h => by
      rw [hasUnsetItems] at h
      simp only [Bool.or_eq_false_iff] at h
      obtain ⟨h1, h2⟩ := h
      rw [serializeItems, hasNullItems]
      simp only [Bool.or_eq_false_iff]
      exact ⟨hasNull_serialize (.vStr s) h1, hasNull_serializeItems rest h2⟩
      intro dd hdd
      cases hdd
  | .vNone :: rest, h => by
      rw [hasUnsetItems] at h
      simp only [Bool.or_eq_false_iff] at h
      obtain ⟨h1, h2⟩ := h
      rw [serializeItems, hasNullItems]
      simp only [Bool.or_eq_false_iff]
      exact ⟨hasNull_serialize .vNone h1, hasNull_serializeItems rest h2⟩
      intro dd hdd
      cases hdd
  | .vList l' :: rest, h => by
      rw [hasUnsetItems] at h
      simp only [Bool.or_eq_false_iff] at h
      obtain ⟨h1, h2⟩ := h
      rw [serializeItems, hasNullItems]
      simp only [Bool.or_eq_false_iff]
      exact ⟨hasNull_serialize (.vList l') h1, hasNull_serializeItems rest h2⟩
      intro dd hdd
      cases hdd
theorem hasNull_serializeEntries :
    ∀ ps : List (String × PyVal), hasUnsetEntries ps = false →
      hasNullEntries (serializeEntries ps) = false
  | [], _ => by simp [serializeEntries, hasNullEntries]
  | (k, v) :: ps, h => by
      rw [hasUnsetEntries] at h
      simp only [Bool.or_eq_false_iff] at h
      obtain ⟨h1, h2⟩ := h
      rw [serializeEntries]
      by_cases hn : isVNone v = true
      · rw [if_pos hn]
        exact hasNull_serializeEntries ps h2
      · rw [if_neg hn, hasNullEntries]
        simp only [Bool.or_eq_false_iff]
        exact ⟨hasNull_serialize v h1, hasNull_serializeEntries ps h2⟩
end

/-- C8 counterexample: a key whose value is the validation framework's
`UnsetValue` is not stripped by `filter_none`; it is serialized to `None`
and kept, so the resulting properties contain a null. -/
theorem filter_none_unset_counterexample :
    filterNone [("k", .vUnset)] = [("k", .vNone)] ∧
    hasNull (.vDict (filterNone [("k", .vUnset)])) = true :=
  ⟨rfl, rfl⟩

/-- C8 (amended): `filter_none` strips every `None`-valued key of the
validated record, at the top level and inside dict elements of list
values, so — provided the record contains no `UnsetValue` marker (an
unset value is serialized to null and kept, not stripped) — the emitted
properties contain no null at any depth. -/
theorem filter_none_no_nulls (d : Dict) (h : hasUnset (.vDict d) = false) :
    hasNull (.vDict (filterNone d)) = false := by
  have hd : hasUnsetEntries d = false := by simpa [hasUnset] using h
  rw [hasNull]
  rw [show filterNone d =
      serializeEntries (d.filter (fun p => !isVNone p.2)) from ?_]
  · apply hasNull_serializeEntries
    clear h
    induction d with
    | nil => rfl
    | cons p rest ih =>
        rw [hasUnsetEntries] at hd
        simp only [Bool.or_eq_false_iff] at hd
        obtain ⟨h1, h2⟩ := hd
        cases hn : isVNone p.2 with
        | true => simp [List.filter_cons, hn, ih h2]
        | false =>
            rw [List.filter_cons]
            simp only [hn, Bool.not_false, if_pos]
            rw [hasUnsetEntries]
            simp [h1, ih h2]
  · clear h hd
    induction d with
    | nil => rfl
    | cons p rest ih =>
        cases hn : isVNone p.2 with
        | true =>
            simp only [filterNone, List.filter_cons, hn, Bool.not_true,
              Bool.false_eq_true, if_false]
            simpa [filterNone] using ih
        | false =>
            simp only [filterNone, List.filter_cons, hn, Bool.not_false,
              if_true, List.map_cons, serializeEntries]
            rw [if_neg (by simp [hn])]
            simpa [filterNone] using ih

theorem filter_none_no_nulls_witness :
    hasNull (.vDict (filterNone dC8)) = false ∧
    filterNone dC8 =
      [("a", .vInt 1), ("c", .vList [.vDict [("y", .vStr "v")]])] :=
  ⟨filter_none_no_nulls dC8 rfl, rfl⟩

/-- C9 counterexample: the empty string is a `source_group` other than
`parking-sites`/`parking-spots`, yet the program does exit with a usage
message (the first guard) rather than reaching the `NameError`. -/
theorem cli_empty_group_counterexample :
    cliResolve "x" "" =
      .usageExit "Error: please add a source_uid as first argument" ∧
    cliResolve "x" "" ≠ .nameError := by
  refine ⟨rfl, ?_⟩
  decide

/-- C9 (amended): for a non-empty `source_group` other than
`parking-sites` and `parking-spots` the CLI does not exit with a usage
message — `file_path` is never assigned and the file-existence check
raises an unhandled `NameError`; the empty `source_group` exits through
the guards, both of which test `source_group` (the first printing a
message about `source_uid`); and `source_uid`'s non-emptiness is never
validated — an empty `source_uid` proceeds to the file check. -/
theorem cli_dispatch_behaviour :
    (∀ uid sg : String, sg ≠ "" → sg ≠ "parking-sites" →
      sg ≠ "parking-spots" → cliResolve uid sg = .nameError) ∧
    (∀ uid : String, cliResolve uid "" =
      .usageExit "Error: please add a source_uid as first argument") ∧
    cliResolve "" "parking-sites" = .checkFile "sources/.xlsx" ∧
    cliResolve "" "parking-spots" =
      .checkFile "sources/parking-spots/.xlsx" := by
  refine ⟨?_, ?_, rfl, rfl⟩
  · intro uid sg h1 h2 h3
    simp [cliResolve, h1, h2, h3]
  · intro uid
    simp [cliResolve]

theorem cli_dispatch_behaviour_witness :
    cliResolve "x" "bogus" = .nameError :=
  cli_dispatch_behaviour.1 "x" "bogus" (by decide) (by decide) (by decide)
